import Mathlib

/-!
Verification development for the claude-mem storage core.

This file gives a shallow embedding of the PostgreSQL backends of the
claude-mem work queue (`src/services/postgres/PostgresPendingMessageStore.ts`),
the session store (`src/services/postgres/PostgresSessionStore.ts`) and the
replication fan-out (`src/shared/replication-utils.ts`), and proves or refutes
the specification's claims about them.

Modelling conventions:
- a SQL table is a `List` of row structures; `UPDATE ... WHERE c` is a `map`
  that rewrites exactly the rows satisfying `c`; `SELECT ... LIMIT 1` is
  `List.find?`;
- `Date.now()` is an explicit `now : Int` argument;
- `SERIAL` ids assigned by the database are passed explicitly or drawn from a
  per-table counter carried in the `Db` state;
- SQL three-valued logic is preserved where it matters: a comparison with
  `NULL` is never true (`sqlEqOptStr`);
- the replication `fetch` is modelled by an environment `Nat → FetchOutcome`
  giving each port's outcome; a thrown exception is an `Except.error`, and the
  source's `try/catch` is the `match` that turns it into a warn log.
-/

namespace ClaudeMem

/-- Status values stored in the `status` column of `pending_messages`. -/
inductive MsgStatus where
  | pending
  | processing
  | processed
  | failed
  deriving DecidableEq

/-- Row of the `pending_messages` table (`PersistentPendingMessage` in the
source). -/
structure PersistentPendingMessage where
  id : Nat
  session_db_id : Nat
  claude_session_id : String
  message_type : String
  tool_name : Option String
  tool_input : Option String
  tool_response : Option String
  cwd : Option String
  last_user_message : Option String
  last_assistant_message : Option String
  prompt_number : Option Nat
  status : MsgStatus
  retry_count : Nat
  created_at_epoch : Int
  started_processing_at_epoch : Option Int
  completed_at_epoch : Option Int
  deriving DecidableEq

/-- Input message for `enqueue` (`PendingMessage` in the source); the
JSON-serialised `tool_input`/`tool_response` payloads are kept as opaque
optional strings. -/
structure PendingMessage where
  type : String
  tool_name : Option String
  tool_input : Option String
  tool_response : Option String
  cwd : Option String
  last_user_message : Option String
  last_assistant_message : Option String
  prompt_number : Option Nat
  deriving DecidableEq

/-- Embedding of `PostgresPendingMessageStore.enqueue`: INSERT with status
`pending`, `retry_count` 0 and `created_at_epoch` now.  The SERIAL id the
database would assign is passed explicitly as `newId`. -/
def enqueue (newId : Nat) (now : Int) (sessionDbId : Nat) (claudeSessionId : String)
    (message : PendingMessage) (rows : List PersistentPendingMessage) :
    List PersistentPendingMessage :=
  rows ++ [{ id := newId
             session_db_id := sessionDbId
             claude_session_id := claudeSessionId
             message_type := message.type
             tool_name := message.tool_name
             tool_input := message.tool_input
             tool_response := message.tool_response
             cwd := message.cwd
             last_user_message := message.last_user_message
             last_assistant_message := message.last_assistant_message
             prompt_number := message.prompt_number
             status := .pending
             retry_count := 0
             created_at_epoch := now
             started_processing_at_epoch := none
             completed_at_epoch := none }]

/-- Per-row effect of the `markProcessing` UPDATE:
`SET status=processing, started_processing_at_epoch=now WHERE id=messageId AND
status=pending`. -/
def markProcessingRow (now : Int) (messageId : Nat) (r : PersistentPendingMessage) :
    PersistentPendingMessage :=
  if r.id = messageId ∧ r.status = .pending then
    { r with status := .processing, started_processing_at_epoch := some now }
  else r

/-- Embedding of `PostgresPendingMessageStore.markProcessing`. -/
def markProcessing (now : Int) (messageId : Nat) (rows : List PersistentPendingMessage) :
    List PersistentPendingMessage :=
  rows.map (markProcessingRow now messageId)

/-- Per-row effect of the `markProcessed` UPDATE:
`SET status=processed, completed_at_epoch=now, tool_input=NULL,
tool_response=NULL WHERE id=messageId AND status=processing`. -/
def markProcessedRow (now : Int) (messageId : Nat) (r : PersistentPendingMessage) :
    PersistentPendingMessage :=
  if r.id = messageId ∧ r.status = .processing then
    { r with status := .processed, completed_at_epoch := some now,
             tool_input := none, tool_response := none }
  else r

/-- Embedding of `PostgresPendingMessageStore.markProcessed`. -/
def markProcessed (now : Int) (messageId : Nat) (rows : List PersistentPendingMessage) :
    List PersistentPendingMessage :=
  rows.map (markProcessedRow now messageId)

/-- Embedding of `PostgresPendingMessageStore.markFailed`: first SELECT the
row's `retry_count`; if the row is absent do nothing; if `retry_count <
maxRetries` UPDATE it (no status condition in the WHERE clause) back to
`pending` with `retry_count+1` and the start time cleared; otherwise UPDATE it
(again without a status condition) to terminal `failed` with the completion
time recorded. -/
def markFailed (maxRetries : Nat) (now : Int) (messageId : Nat)
    (rows : List PersistentPendingMessage) : List PersistentPendingMessage :=
  match rows.find? (fun r => r.id == messageId) with
  | none => rows
  | some msg =>
    if msg.retry_count < maxRetries then
      rows.map (fun r =>
        if r.id = messageId then
          { r with status := .pending, retry_count := r.retry_count + 1,
                   started_processing_at_epoch := none }
        else r)
    else
      rows.map (fun r =>
        if r.id = messageId then
          { r with status := .failed, completed_at_epoch := some now }
        else r)

/-- Per-row effect of the `retryMessage` UPDATE:
`SET status=pending, started_processing_at_epoch=NULL WHERE id=messageId AND
status IN (pending, processing, failed)`. -/
def retryMessageRow (messageId : Nat) (r : PersistentPendingMessage) :
    PersistentPendingMessage :=
  if r.id = messageId ∧ (r.status = .pending ∨ r.status = .processing ∨ r.status = .failed) then
    { r with status := .pending, started_processing_at_epoch := none }
  else r

/-- Embedding of `PostgresPendingMessageStore.retryMessage`; the second
component is the source's `rowCount > 0` return value. -/
def retryMessage (messageId : Nat) (rows : List PersistentPendingMessage) :
    List PersistentPendingMessage × Bool :=
  (rows.map (retryMessageRow messageId),
   rows.any (fun r =>
     r.id == messageId &&
       (r.status == .pending || r.status == .processing || r.status == .failed)))

/-- WHERE condition of `resetStuckMessages`:
`status = processing AND started_processing_at_epoch < cutoff`; the comparison
with a NULL start time is never true in SQL. -/
def stuckCond (cutoff : Int) (r : PersistentPendingMessage) : Bool :=
  r.status == .processing &&
    (match r.started_processing_at_epoch with
     | some s => decide (s < cutoff)
     | none => false)

/-- Per-row effect of the `resetStuckMessages` UPDATE. -/
def resetStuckRow (cutoff : Int) (r : PersistentPendingMessage) :
    PersistentPendingMessage :=
  if stuckCond cutoff r then
    { r with status := .pending, started_processing_at_epoch := none }
  else r

/-- Embedding of `PostgresPendingMessageStore.resetStuckMessages`: with
threshold 0 the cutoff is `Date.now()` itself, otherwise `now - thresholdMs`;
every `processing` row whose start time is strictly below the cutoff is forced
back to `pending` with the start time cleared.  The source's affected-row
count return value is not modelled. -/
def resetStuckMessages (thresholdMs : Nat) (now : Int)
    (rows : List PersistentPendingMessage) : List PersistentPendingMessage :=
  let cutoff : Int := if thresholdMs = 0 then now else now - (thresholdMs : Int)
  rows.map (resetStuckRow cutoff)

/-- Row of the `sdk_sessions` table. -/
structure SdkSessionRow where
  id : Nat
  claude_session_id : String
  sdk_session_id : Option String
  project : String
  user_id : Option String
  user_prompt : String
  started_at : String
  started_at_epoch : Int
  completed_at : Option String
  completed_at_epoch : Option Int
  status : String
  worker_port : Option Nat
  deriving DecidableEq

/-- Row of the `observations` table. -/
structure ObservationRow where
  id : Nat
  sdk_session_id : String
  project : String
  text : Option String
  type : String
  title : Option String
  subtitle : Option String
  facts : Option String
  narrative : Option String
  concepts : Option String
  files_read : Option String
  files_modified : Option String
  prompt_number : Option Nat
  discovery_tokens : Nat
  created_at : String
  created_at_epoch : Int
  deriving DecidableEq

/-- Row of the `session_summaries` table. -/
structure SessionSummaryRow where
  id : Nat
  sdk_session_id : String
  project : String
  request : Option String
  investigated : Option String
  learned : Option String
  completed : Option String
  next_steps : Option String
  files_read : Option String
  files_edited : Option String
  notes : Option String
  prompt_number : Option Nat
  discovery_tokens : Nat
  created_at : String
  created_at_epoch : Int
  deriving DecidableEq

/-- Row of the `user_prompts` table. -/
structure UserPromptRow where
  id : Nat
  claude_session_id : String
  prompt_number : Nat
  prompt_text : String
  created_at : String
  created_at_epoch : Int
  deriving DecidableEq

/-- State of the session-store database: the four entity tables plus the next
SERIAL id of each. -/
structure Db where
  sessions : List SdkSessionRow
  observations : List ObservationRow
  summaries : List SessionSummaryRow
  prompts : List UserPromptRow
  nextSessionId : Nat
  nextObservationId : Nat
  nextSummaryId : Nat
  nextPromptId : Nat
  deriving DecidableEq

/-- Empty database with all id counters at 1. -/
def emptyDb : Db :=
  { sessions := [], observations := [], summaries := [], prompts := []
    nextSessionId := 1, nextObservationId := 1, nextSummaryId := 1, nextPromptId := 1 }

/-- Result shape `{ imported, id }` of the import operations. -/
structure ImportResult where
  imported : Bool
  id : Nat
  deriving DecidableEq

/-- SQL equality on nullable text columns: comparing with `NULL` is never
true (three-valued logic), so `title = $2` with a NULL operand matches no
row. -/
def sqlEqOptStr (a b : Option String) : Bool :=
  match a, b with
  | some x, some y => x == y
  | _, _ => false

/-- Per-row effect of the `ON CONFLICT (claude_session_id) DO UPDATE` clause
of `createSDKSession`: the stored project is replaced only when it is
currently the empty string, and the stored user prompt is overwritten. -/
def upsertSessionRow (claudeSessionId project userPrompt : String)
    (t : SdkSessionRow) : SdkSessionRow :=
  if t.claude_session_id = claudeSessionId then
    { t with project := if t.project = "" then project else t.project
             user_prompt := userPrompt }
  else t

/-- Row the `createSDKSession` INSERT writes: both `claude_session_id` and
`sdk_session_id` receive the external id and the status is `active`. -/
def sessionRowOfCreate (id : Nat) (now : Int) (nowIso userId claudeSessionId
    project userPrompt : String) : SdkSessionRow :=
  { id := id
    claude_session_id := claudeSessionId
    sdk_session_id := some claudeSessionId
    project := project
    user_id := some userId
    user_prompt := userPrompt
    started_at := nowIso
    started_at_epoch := now
    completed_at := none
    completed_at_epoch := none
    status := "active"
    worker_port := none }

/-- Embedding of `PostgresSessionStore.createSDKSession`: INSERT a fresh row
with status `active`, or on conflict apply `upsertSessionRow`; RETURNING id
gives the row's id in both cases. -/
def createSDKSession (db : Db) (now : Int) (nowIso : String) (userId : String)
    (claudeSessionId project userPrompt : String) : Nat × Db :=
  match db.sessions.find? (fun s => s.claude_session_id == claudeSessionId) with
  | some s =>
    (s.id,
     { db with sessions :=
         db.sessions.map (upsertSessionRow claudeSessionId project userPrompt) })
  | none =>
    (db.nextSessionId,
     { db with
         sessions := db.sessions ++
           [sessionRowOfCreate db.nextSessionId now nowIso userId claudeSessionId
             project userPrompt]
         nextSessionId := db.nextSessionId + 1 })

/-- Input record of `importSdkSession`. -/
structure SdkSessionImport where
  claude_session_id : String
  sdk_session_id : String
  project : String
  user_prompt : String
  started_at : String
  started_at_epoch : Int
  completed_at : Option String
  completed_at_epoch : Option Int
  status : String
  deriving DecidableEq

/-- Row the `importSdkSession` INSERT writes. -/
def sessionRowOfImport (id : Nat) (session : SdkSessionImport) : SdkSessionRow :=
  { id := id
    claude_session_id := session.claude_session_id
    sdk_session_id := some session.sdk_session_id
    project := session.project
    user_id := none
    user_prompt := session.user_prompt
    started_at := session.started_at
    started_at_epoch := session.started_at_epoch
    completed_at := session.completed_at
    completed_at_epoch := session.completed_at_epoch
    status := session.status
    worker_port := none }

/-- Embedding of `PostgresSessionStore.importSdkSession` (see
`sessionRowOfImport` for the INSERT row). -/
def importSdkSession (db : Db) (session : SdkSessionImport) : ImportResult × Db :=
  match db.sessions.find? (fun s => s.claude_session_id == session.claude_session_id) with
  | some row => ({ imported := false, id := row.id }, db)
  | none =>
    ({ imported := true, id := db.nextSessionId },
     { db with
         sessions := db.sessions ++ [sessionRowOfImport db.nextSessionId session]
         nextSessionId := db.nextSessionId + 1 })

/-- Input record of `importSessionSummary`. -/
structure SessionSummaryImport where
  sdk_session_id : String
  project : String
  request : Option String
  investigated : Option String
  learned : Option String
  completed : Option String
  next_steps : Option String
  files_read : Option String
  files_edited : Option String
  notes : Option String
  prompt_number : Option Nat
  discovery_tokens : Nat
  created_at : String
  created_at_epoch : Int
  deriving DecidableEq

/-- Row the `importSessionSummary` INSERT writes. -/
def summaryRowOfImport (id : Nat) (summary : SessionSummaryImport) :
    SessionSummaryRow :=
  { id := id
    sdk_session_id := summary.sdk_session_id
    project := summary.project
    request := summary.request
    investigated := summary.investigated
    learned := summary.learned
    completed := summary.completed
    next_steps := summary.next_steps
    files_read := summary.files_read
    files_edited := summary.files_edited
    notes := summary.notes
    prompt_number := summary.prompt_number
    discovery_tokens := summary.discovery_tokens
    created_at := summary.created_at
    created_at_epoch := summary.created_at_epoch }

/-- Embedding of `PostgresSessionStore.importSessionSummary`: the existence
check is `WHERE sdk_session_id = $1` — the session id alone, without the
prompt number. -/
def importSessionSummary (db : Db) (summary : SessionSummaryImport) :
    ImportResult × Db :=
  match db.summaries.find? (fun t => t.sdk_session_id == summary.sdk_session_id) with
  | some row => ({ imported := false, id := row.id }, db)
  | none =>
    ({ imported := true, id := db.nextSummaryId },
     { db with
         summaries := db.summaries ++ [summaryRowOfImport db.nextSummaryId summary]
         nextSummaryId := db.nextSummaryId + 1 })

/-- Input record of `importObservation`. -/
structure ObservationImport where
  sdk_session_id : String
  project : String
  text : Option String
  type : String
  title : Option String
  subtitle : Option String
  facts : Option String
  narrative : Option String
  concepts : Option String
  files_read : Option String
  files_modified : Option String
  prompt_number : Option Nat
  discovery_tokens : Nat
  created_at : String
  created_at_epoch : Int
  deriving DecidableEq

/-- Row the `importObservation` INSERT writes. -/
def observationRowOfImport (id : Nat) (obs : ObservationImport) : ObservationRow :=
  { id := id
    sdk_session_id := obs.sdk_session_id
    project := obs.project
    text := obs.text
    type := obs.type
    title := obs.title
    subtitle := obs.subtitle
    facts := obs.facts
    narrative := obs.narrative
    concepts := obs.concepts
    files_read := obs.files_read
    files_modified := obs.files_modified
    prompt_number := obs.prompt_number
    discovery_tokens := obs.discovery_tokens
    created_at := obs.created_at
    created_at_epoch := obs.created_at_epoch }

/-- Embedding of `PostgresSessionStore.importObservation`: the existence check
is `WHERE sdk_session_id = $1 AND title = $2 AND created_at_epoch = $3`; the
`title` comparison follows SQL NULL semantics (`sqlEqOptStr`). -/
def importObservation (db : Db) (obs : ObservationImport) : ImportResult × Db :=
  match db.observations.find? (fun o =>
      o.sdk_session_id == obs.sdk_session_id && sqlEqOptStr o.title obs.title &&
        o.created_at_epoch == obs.created_at_epoch) with
  | some row => ({ imported := false, id := row.id }, db)
  | none =>
    ({ imported := true, id := db.nextObservationId },
     { db with
         observations := db.observations ++
           [observationRowOfImport db.nextObservationId obs]
         nextObservationId := db.nextObservationId + 1 })

/-- Input record of `importUserPrompt`. -/
structure UserPromptImport where
  claude_session_id : String
  prompt_number : Nat
  prompt_text : String
  created_at : String
  created_at_epoch : Int
  deriving DecidableEq

/-- Row the `importUserPrompt` INSERT writes. -/
def promptRowOfImport (id : Nat) (prompt : UserPromptImport) : UserPromptRow :=
  { id := id
    claude_session_id := prompt.claude_session_id
    prompt_number := prompt.prompt_number
    prompt_text := prompt.prompt_text
    created_at := prompt.created_at
    created_at_epoch := prompt.created_at_epoch }

/-- Embedding of `PostgresSessionStore.importUserPrompt`: the existence check
is `WHERE claude_session_id = $1 AND prompt_number = $2`. -/
def importUserPrompt (db : Db) (prompt : UserPromptImport) : ImportResult × Db :=
  match db.prompts.find? (fun p =>
      p.claude_session_id == prompt.claude_session_id &&
        p.prompt_number == prompt.prompt_number) with
  | some row => ({ imported := false, id := row.id }, db)
  | none =>
    ({ imported := true, id := db.nextPromptId },
     { db with
         prompts := db.prompts ++ [promptRowOfImport db.nextPromptId prompt]
         nextPromptId := db.nextPromptId + 1 })

/-- Insert into a list sorted by the boolean relation `le` (insertion step of
the sort used to model SQL ORDER BY). -/
def insertBy {α : Type} (le : α → α → Bool) (a : α) : List α → List α
  | [] => [a]
  | x :: xs => if le a x then a :: x :: xs else x :: insertBy le a xs

/-- Insertion sort by the boolean relation `le`; models SQL ORDER BY (the
concrete claims only sort rows with distinct keys, so stability is
irrelevant). -/
def sortBy {α : Type} (le : α → α → Bool) (l : List α) : List α :=
  l.foldr (insertBy le) []

/-- Return shape of `getTimelineAroundObservation`: the source's `sessions`
field holds `session_summaries` rows, and each returned prompt row carries the
joined session's `project` and `sdk_session_id`. -/
structure TimelineResult where
  observations : List ObservationRow
  sessions : List SessionSummaryRow
  prompts : List (UserPromptRow × String × Option String)
  deriving DecidableEq

/-- Embedding of `PostgresSessionStore.getTimelineAroundObservation`.
Boundary step: the `before` query selects observations with
`created_at_epoch <= anchor` ordered DESC with `LIMIT depthBefore` (note: this
limit counts the anchor row itself), the `after` query selects
`created_at_epoch >= anchor` ordered ASC with `LIMIT depthAfter + 1`; the last
row of each (or the anchor epoch when a side is empty) gives the window
`[startEpoch, endEpoch]`.  Range step: all observations, summaries and
prompts (inner-joined to `sdk_sessions` on the external session id) inside the
window, ordered ASC.  `anchorObservationId` is accepted but never used by the
source's queries. -/
def getTimelineAroundObservation (db : Db) (anchorObservationId : Option Nat)
    (anchorEpoch : Int) (depthBefore depthAfter : Nat) (project : Option String) :
    TimelineResult :=
  let matchProj : String → Bool := fun pr =>
    match project with
    | none => true
    | some q => pr == q
  let beforeRows :=
    (sortBy (fun a b => decide (b.created_at_epoch ≤ a.created_at_epoch))
      (db.observations.filter (fun o =>
        decide (o.created_at_epoch ≤ anchorEpoch) && matchProj o.project))).take depthBefore
  let afterRows :=
    (sortBy (fun a b => decide (a.created_at_epoch ≤ b.created_at_epoch))
      (db.observations.filter (fun o =>
        decide (anchorEpoch ≤ o.created_at_epoch) && matchProj o.project))).take (depthAfter + 1)
  if beforeRows.isEmpty && afterRows.isEmpty then
    { observations := [], sessions := [], prompts := [] }
  else
    let startEpoch :=
      match beforeRows.getLast? with
      | some r => r.created_at_epoch
      | none => anchorEpoch
    let endEpoch :=
      match afterRows.getLast? with
      | some r => r.created_at_epoch
      | none => anchorEpoch
    { observations :=
        sortBy (fun a b => decide (a.created_at_epoch ≤ b.created_at_epoch))
          (db.observations.filter (fun o =>
            decide (startEpoch ≤ o.created_at_epoch) &&
              decide (o.created_at_epoch ≤ endEpoch) && matchProj o.project))
      sessions :=
        sortBy (fun a b => decide (a.created_at_epoch ≤ b.created_at_epoch))
          (db.summaries.filter (fun t =>
            decide (startEpoch ≤ t.created_at_epoch) &&
              decide (t.created_at_epoch ≤ endEpoch) && matchProj t.project))
      prompts :=
        sortBy (fun a b => decide (a.1.created_at_epoch ≤ b.1.created_at_epoch))
          (db.prompts.filterMap (fun up =>
            match db.sessions.find? (fun s => s.claude_session_id == up.claude_session_id) with
            | none => none
            | some s =>
              if decide (startEpoch ≤ up.created_at_epoch) &&
                  decide (up.created_at_epoch ≤ endEpoch) && matchProj s.project then
                some (up, s.project, s.sdk_session_id)
              else none)) }

/-- Embedding of `getTimelineAroundTimestamp`, which delegates with a null
anchor observation id. -/
def getTimelineAroundTimestamp (db : Db) (anchorEpoch : Int)
    (depthBefore depthAfter : Nat) (project : Option String) : TimelineResult :=
  getTimelineAroundObservation db none anchorEpoch depthBefore depthAfter project

/-- Outcome of one replication `fetch` to a port: a response (ok or HTTP
error status) or a thrown exception. -/
inductive FetchOutcome where
  | ok
  | httpError (status : Nat)
  | exn (message : String)
  deriving DecidableEq

/-- Response visible after a non-throwing `fetch`. -/
structure FetchResponse where
  ok : Bool
  status : Nat
  deriving DecidableEq

/-- Model of `fetch`: an exception outcome is an `Except.error` (what the
source's `try` block would propagate were it not caught). -/
def fetchModel (fetchResult : Nat → FetchOutcome) (port : Nat) :
    Except String FetchResponse :=
  match fetchResult port with
  | .ok => .ok { ok := true, status := 200 }
  | .httpError s => .ok { ok := false, status := s }
  | .exn m => .error m

/-- One structured log line: level, component tag, message, target port and
the logged entity id. -/
structure LogEntry where
  level : String
  component : String
  message : String
  port : Nat
  entityId : Nat
  errorMessage : Option String
  deriving DecidableEq

/-- Embedding of `getSecondaryPorts`: all configured worker ports except the
primary port. -/
def getSecondaryPorts (allPorts : List Nat) (primaryPort : Nat) : List Nat :=
  allPorts.filter (fun p => p != primaryPort)

/-- Shared shape of the four replicate loops: for each port in order, perform
the fetch; a thrown exception is caught and logged (`onErr`), a response is
logged at debug or warn level (`onResp`); either way the loop continues with
the next port.  The accumulated state is the list of issued request URLs and
the log.  The `Except` monad carries what an uncaught exception would do. -/
def replicateFold (fetchResult : Nat → FetchOutcome) (call : Nat → String)
    (onResp : Nat → FetchResponse → LogEntry) (onErr : Nat → String → LogEntry)
    (ports : List Nat) : Except String (List String × List LogEntry) :=
  ports.foldlM
    (fun acc port =>
      match fetchModel fetchResult port with
      | .ok resp => Except.ok (acc.1 ++ [call port], acc.2 ++ [onResp port resp])
      | .error m => Except.ok (acc.1 ++ [call port], acc.2 ++ [onErr port m]))
    ([], [])

/-- Payload of `replicateObservation`; the enriched observation object is kept
opaque. -/
structure ObservationReplicationData where
  claudeSessionId : String
  project : String
  observation : String
  promptNumber : Nat
  discoveryTokens : Nat
  obsId : Nat
  createdAtEpoch : Int
  deriving DecidableEq

/-- Request URL of one observation replication call. -/
def observationCallUrl (host : String) (port : Nat) : String :=
  "http://" ++ host ++ ":" ++ toString port ++ "/api/replicate/observation"

/-- Log entry produced for one port by the observation replicate loop. -/
def observationLog (d : ObservationReplicationData) (port : Nat)
    (resp : FetchResponse) : LogEntry :=
  if resp.ok then
    { level := "debug", component := "REPLICATION"
      message := "Observation replicated to port " ++ toString port
      port := port, entityId := d.obsId
      errorMessage := none }
  else
    { level := "warn", component := "REPLICATION"
      message := "Failed to replicate observation to port " ++ toString port
      port := port, entityId := d.obsId
      errorMessage := none }

/-- Log entry produced when the observation replicate loop catches an
exception for one port. -/
def observationErrLog (d : ObservationReplicationData) (port : Nat)
    (m : String) : LogEntry :=
  { level := "warn", component := "REPLICATION"
    message := "Error replicating observation to port " ++ toString port
    port := port, entityId := d.obsId
    errorMessage := some m }

/-- Embedding of `replicateObservation`: early return when there is no
secondary port, otherwise the per-port loop with every failure caught. -/
def replicateObservation (allPorts : List Nat) (primaryPort : Nat) (host : String)
    (fetchResult : Nat → FetchOutcome) (d : ObservationReplicationData) :
    Except String (List String × List LogEntry) :=
  let secondaryPorts := getSecondaryPorts allPorts primaryPort
  if secondaryPorts.isEmpty then Except.ok ([], [])
  else
    replicateFold fetchResult (observationCallUrl host)
      (observationLog d) (observationErrLog d) secondaryPorts

/-- Payload of `replicateSummary`; the summary object is kept opaque. -/
structure SummaryReplicationData where
  claudeSessionId : String
  project : String
  summary : String
  promptNumber : Nat
  discoveryTokens : Nat
  summaryId : Nat
  createdAtEpoch : Int
  deriving DecidableEq

/-- Request URL of one summary replication call. -/
def summaryCallUrl (host : String) (port : Nat) : String :=
  "http://" ++ host ++ ":" ++ toString port ++ "/api/replicate/summary"

/-- Log entry produced for one port by the summary replicate loop. -/
def summaryLog (d : SummaryReplicationData) (port : Nat)
    (resp : FetchResponse) : LogEntry :=
  if resp.ok then
    { level := "debug", component := "REPLICATION"
      message := "Summary replicated to port " ++ toString port
      port := port, entityId := d.summaryId
      errorMessage := none }
  else
    { level := "warn", component := "REPLICATION"
      message := "Failed to replicate summary to port " ++ toString port
      port := port, entityId := d.summaryId
      errorMessage := none }

/-- Log entry produced when the summary replicate loop catches an exception
for one port. -/
def summaryErrLog (d : SummaryReplicationData) (port : Nat) (m : String) :
    LogEntry :=
  { level := "warn", component := "REPLICATION"
    message := "Error replicating summary to port " ++ toString port
    port := port, entityId := d.summaryId
    errorMessage := some m }

/-- Embedding of `replicateSummary`. -/
def replicateSummary (allPorts : List Nat) (primaryPort : Nat) (host : String)
    (fetchResult : Nat → FetchOutcome) (d : SummaryReplicationData) :
    Except String (List String × List LogEntry) :=
  let secondaryPorts := getSecondaryPorts allPorts primaryPort
  if secondaryPorts.isEmpty then Except.ok ([], [])
  else
    replicateFold fetchResult (summaryCallUrl host)
      (summaryLog d) (summaryErrLog d) secondaryPorts

/-- Payload of `replicateSessionInit`. -/
structure SessionInitReplicationData where
  claudeSessionId : String
  project : String
  prompt : String
  sessionDbId : Nat
  promptNumber : Nat
  deriving DecidableEq

/-- Request URL of one session-init replication call. -/
def sessionCallUrl (host : String) (port : Nat) : String :=
  "http://" ++ host ++ ":" ++ toString port ++ "/api/replicate/session"

/-- Log entry produced for one port by the session-init replicate loop. -/
def sessionLog (d : SessionInitReplicationData) (port : Nat)
    (resp : FetchResponse) : LogEntry :=
  if resp.ok then
    { level := "debug", component := "REPLICATION"
      message := "Session replicated to port " ++ toString port
      port := port, entityId := d.sessionDbId
      errorMessage := none }
  else
    { level := "warn", component := "REPLICATION"
      message := "Failed to replicate session to port " ++ toString port
      port := port, entityId := d.sessionDbId
      errorMessage := none }

/-- Log entry produced when the session-init replicate loop catches an
exception for one port. -/
def sessionErrLog (d : SessionInitReplicationData) (port : Nat) (m : String) :
    LogEntry :=
  { level := "warn", component := "REPLICATION"
    message := "Error replicating session to port " ++ toString port
    port := port, entityId := d.sessionDbId
    errorMessage := some m }

/-- Embedding of `replicateSessionInit`. -/
def replicateSessionInit (allPorts : List Nat) (primaryPort : Nat) (host : String)
    (fetchResult : Nat → FetchOutcome) (d : SessionInitReplicationData) :
    Except String (List String × List LogEntry) :=
  let secondaryPorts := getSecondaryPorts allPorts primaryPort
  if secondaryPorts.isEmpty then Except.ok ([], [])
  else
    replicateFold fetchResult (sessionCallUrl host)
      (sessionLog d) (sessionErrLog d) secondaryPorts

/-- Payload of `replicateUserPrompt`. -/
structure UserPromptReplicationData where
  claudeSessionId : String
  promptNumber : Nat
  promptText : String
  deriving DecidableEq

/-- Request URL of one user-prompt replication call. -/
def promptCallUrl (host : String) (port : Nat) : String :=
  "http://" ++ host ++ ":" ++ toString port ++ "/api/replicate/prompt"

/-- Log entry produced for one port by the user-prompt replicate loop. -/
def promptLog (d : UserPromptReplicationData) (port : Nat)
    (resp : FetchResponse) : LogEntry :=
  if resp.ok then
    { level := "debug", component := "REPLICATION"
      message := "Prompt replicated to port " ++ toString port
      port := port, entityId := d.promptNumber
      errorMessage := none }
  else
    { level := "warn", component := "REPLICATION"
      message := "Failed to replicate prompt to port " ++ toString port
      port := port, entityId := d.promptNumber
      errorMessage := none }

/-- Log entry produced when the user-prompt replicate loop catches an
exception for one port. -/
def promptErrLog (d : UserPromptReplicationData) (port : Nat) (m : String) :
    LogEntry :=
  { level := "warn", component := "REPLICATION"
    message := "Error replicating prompt to port " ++ toString port
    port := port, entityId := d.promptNumber
    errorMessage := some m }

/-- Embedding of `replicateUserPrompt`. -/
def replicateUserPrompt (allPorts : List Nat) (primaryPort : Nat) (host : String)
    (fetchResult : Nat → FetchOutcome) (d : UserPromptReplicationData) :
    Except String (List String × List LogEntry) :=
  let secondaryPorts := getSecondaryPorts allPorts primaryPort
  if secondaryPorts.isEmpty then Except.ok ([], [])
  else
    replicateFold fetchResult (promptCallUrl host)
      (promptLog d) (promptErrLog d) secondaryPorts

/-! Concrete fixtures and helper lemmas for the work-queue claims. -/

/-- Enqueue input of kind `observation` used by the concrete scenarios. -/
def obsMessage : PendingMessage :=
  { type := "observation", tool_name := some "Read", tool_input := some "payloadIn"
    tool_response := some "payloadOut", cwd := none, last_user_message := none
    last_assistant_message := none, prompt_number := some 1 }

/-- Store holding the single freshly enqueued job A (id 1) for session S. -/
def c1store0 : List PersistentPendingMessage := enqueue 1 0 7 "S" obsMessage []

/-- One failure round on job 1: `markProcessing` then `markFailed` with
`maxRetries = 3`. -/
def c1round (now : Int) (rows : List PersistentPendingMessage) :
    List PersistentPendingMessage :=
  markFailed 3 now 1 (markProcessing now 1 rows)

/-- C1 counterexample: with `maxRetries = 3` and `retry_count` starting at 0,
the third `markProcessing`/`markFailed` round leaves job A in status `pending`
with `retry_count = 3`, not in terminal status `failed` as the claim states:
`markFailed` tests the pre-increment retry count, so the third call still sees
`retry_count = 2 < 3` and retries. -/
theorem c1_counterexample :
    ((c1round 30 (c1round 20 (c1round 10 c1store0))).map
        (fun r => (r.status, r.retry_count)) = [(MsgStatus.pending, 3)]) ∧
    ((c1round 30 (c1round 20 (c1round 10 c1store0))).map (fun r => r.status) ≠
      [MsgStatus.failed]) := by
  decide

/-- C1 (amended): while the pre-failure `retry_count` is below `maxRetries`,
each `markFailed` increments `retry_count` by exactly 1 and returns the job to
`pending` with the start time cleared; under `maxRetries = 3` the third
`markProcessing`/`markFailed` round therefore leaves the job pending with
`retry_count = 3`, and it is the fourth round that leaves it in terminal
status `failed` with `retry_count = maxRetries = 3`. -/
theorem c1_retry_schedule (r : PersistentPendingMessage) (m : Nat) (now : Int)
    (h : r.retry_count < m) :
    markFailed m now r.id [r] =
      [{ r with status := .pending, retry_count := r.retry_count + 1,
                started_processing_at_epoch := none }] ∧
    ((c1round 30 (c1round 20 (c1round 10 c1store0))).map
        (fun x => (x.status, x.retry_count)) = [(MsgStatus.pending, 3)]) ∧
    ((c1round 40 (c1round 30 (c1round 20 (c1round 10 c1store0)))).map
        (fun x => (x.status, x.retry_count, x.completed_at_epoch)) =
      [(MsgStatus.failed, 3, some 40)]) := by
  refine ⟨?_, by decide, by decide⟩
  have hfind : List.find? (fun x => x.id == r.id) [r] = some r := by
    simp [List.find?]
  simp [markFailed, hfind, h]

/-- Job in status `processing` with one spent retry, used to witness the
amended C1. -/
def c1witnessJob : PersistentPendingMessage :=
  { id := 5, session_db_id := 1, claude_session_id := "S"
    message_type := "observation", tool_name := none, tool_input := none
    tool_response := none, cwd := none, last_user_message := none
    last_assistant_message := none, prompt_number := none
    status := .processing, retry_count := 1, created_at_epoch := 0
    started_processing_at_epoch := some 2, completed_at_epoch := none }

/-- Witness for the amended C1 at a concrete job with `retry_count = 1 < 3`. -/
theorem c1_retry_schedule_witness :
    markFailed 3 9 c1witnessJob.id [c1witnessJob] =
      [{ c1witnessJob with status := .pending,
                           retry_count := c1witnessJob.retry_count + 1,
                           started_processing_at_epoch := none }] ∧
    ((c1round 30 (c1round 20 (c1round 10 c1store0))).map
        (fun x => (x.status, x.retry_count)) = [(MsgStatus.pending, 3)]) ∧
    ((c1round 40 (c1round 30 (c1round 20 (c1round 10 c1store0)))).map
        (fun x => (x.status, x.retry_count, x.completed_at_epoch)) =
      [(MsgStatus.failed, 3, some 40)]) :=
  c1_retry_schedule c1witnessJob 3 9 (by decide)

/-- Store in which job 1 has gone `pending → processing → processed`. -/
def c2processedStore : List PersistentPendingMessage :=
  markProcessed 20 1 (markProcessing 10 1 (enqueue 1 0 7 "S" obsMessage []))

/-- C2 counterexample: a job in terminal status `processed` (reached by a
legal `enqueue`/`markProcessing`/`markProcessed` sequence, with
`retry_count = 0 < maxRetries`) is moved back to `pending` by `markFailed`,
because the `markFailed` UPDATE has no status condition; the claim states a
terminal job is never moved back to `pending`. -/
theorem c2_counterexample :
    (c2processedStore.map (fun r => r.status) = [MsgStatus.processed]) ∧
    ((markFailed 3 30 1 c2processedStore).map (fun r => r.status) =
      [MsgStatus.pending]) := by
  decide

/-- C2 (amended): `markProcessing` applied to a job that is not `pending`
leaves it unchanged, and `markProcessed` applied to a job that is not
`processing` leaves it unchanged (so a pending job never moves directly to
`processed`); but `markFailed` checks only the retry count, never the status:
applied to any existing job with `retry_count < maxRetries` — including one in
terminal status `processed` or `failed` — it moves the job back to `pending`,
and applied to any job with `retry_count ≥ maxRetries` it marks it `failed`. -/
theorem c2_state_machine (now : Int) (messageId : Nat) (m : Nat)
    (r : PersistentPendingMessage) :
    (r.status ≠ .pending → markProcessingRow now messageId r = r) ∧
    (r.status ≠ .processing → markProcessedRow now messageId r = r) ∧
    (r.retry_count < m → markFailed m now r.id [r] =
      [{ r with status := .pending, retry_count := r.retry_count + 1,
                started_processing_at_epoch := none }]) ∧
    (m ≤ r.retry_count → markFailed m now r.id [r] =
      [{ r with status := .failed, completed_at_epoch := some now }]) := by
  have hfind : List.find? (fun x => x.id == r.id) [r] = some r := by
    simp [List.find?]
  refine ⟨fun h => ?_, fun h => ?_, fun h => ?_, fun h => ?_⟩
  · simp [markProcessingRow, h]
  · simp [markProcessedRow, h]
  · simp [markFailed, hfind, h]
  · have hn : ¬ r.retry_count < m := Nat.not_lt.mpr h
    simp [markFailed, hfind, hn]

/-- Job in terminal status `failed` with an unspent retry budget. -/
def c2failedJob : PersistentPendingMessage :=
  { id := 3, session_db_id := 1, claude_session_id := "S"
    message_type := "observation", tool_name := none, tool_input := none
    tool_response := none, cwd := none, last_user_message := none
    last_assistant_message := none, prompt_number := none
    status := .failed, retry_count := 0, created_at_epoch := 0
    started_processing_at_epoch := none, completed_at_epoch := some 4 }

/-- Job in terminal status `processed` with an exhausted retry budget. -/
def c2maxedJob : PersistentPendingMessage :=
  { id := 4, session_db_id := 1, claude_session_id := "S"
    message_type := "observation", tool_name := none, tool_input := none
    tool_response := none, cwd := none, last_user_message := none
    last_assistant_message := none, prompt_number := none
    status := .processed, retry_count := 3, created_at_epoch := 0
    started_processing_at_epoch := none, completed_at_epoch := some 4 }

/-- Witness for the amended C2 at concrete jobs exercising all four parts. -/
theorem c2_state_machine_witness :
    markProcessingRow 5 1 c2failedJob = c2failedJob ∧
    markProcessedRow 5 1 c2failedJob = c2failedJob ∧
    markFailed 3 5 c2failedJob.id [c2failedJob] =
      [{ c2failedJob with status := .pending,
                          retry_count := c2failedJob.retry_count + 1,
                          started_processing_at_epoch := none }] ∧
    markFailed 3 5 c2maxedJob.id [c2maxedJob] =
      [{ c2maxedJob with status := .failed, completed_at_epoch := some 5 }] :=
  ⟨(c2_state_machine 5 1 3 c2failedJob).1 (by decide),
   (c2_state_machine 5 1 3 c2failedJob).2.1 (by decide),
   (c2_state_machine 5 1 3 c2failedJob).2.2.1 (by decide),
   (c2_state_machine 5 1 3 c2maxedJob).2.2.2 (by decide)⟩

/-- Processing job whose start timestamp is 500. -/
def c4job : PersistentPendingMessage :=
  { id := 1, session_db_id := 7, claude_session_id := "S"
    message_type := "observation", tool_name := none, tool_input := none
    tool_response := none, cwd := none, last_user_message := none
    last_assistant_message := none, prompt_number := none
    status := .processing, retry_count := 0, created_at_epoch := 400
    started_processing_at_epoch := some 500, completed_at_epoch := none }

/-- C4 counterexample: `resetStuckMessages(0)` at current time 500 leaves a
`processing` job whose start timestamp equals the current time (500)
unchanged, because the WHERE clause compares with strict `<`; the claim states
every processing job, including one whose start timestamp equals the current
time, is moved to `pending`. -/
theorem c4_counterexample :
    c4job.status = MsgStatus.processing ∧
    c4job.started_processing_at_epoch = some 500 ∧
    resetStuckMessages 0 500 [c4job] = [c4job] := by
  decide

/-- C4 (amended): `resetStuckMessages(0)` uses the current time itself as the
cutoff, so it moves to `pending` (clearing the start time) exactly those
`processing` jobs whose start timestamp is strictly older than the current
time; a processing job whose start timestamp equals (or exceeds) the current
time is left unchanged, and jobs in every other status are left unchanged. -/
theorem c4_reset_stuck (now : Int) (rows : List PersistentPendingMessage)
    (r : PersistentPendingMessage) :
    (resetStuckMessages 0 now rows = rows.map (resetStuckRow now)) ∧
    (∀ s : Int, r.status = .processing → r.started_processing_at_epoch = some s →
      s < now → resetStuckRow now r =
        { r with status := .pending, started_processing_at_epoch := none }) ∧
    (∀ s : Int, r.started_processing_at_epoch = some s → now ≤ s →
      resetStuckRow now r = r) ∧
    (r.status ≠ .processing → resetStuckRow now r = r) := by
  refine ⟨by simp [resetStuckMessages], fun s hst hs hlt => ?_,
          fun s hs hge => ?_, fun h => ?_⟩
  · simp [resetStuckRow, stuckCond, hst, hs, hlt]
  · have hn : ¬ s < now := not_lt.mpr hge
    simp [resetStuckRow, stuckCond, hs, hn]
  · simp [resetStuckRow, stuckCond, h]

/-- Processing job started strictly before time 500. -/
def c4stuckJob : PersistentPendingMessage :=
  { c4job with id := 2, started_processing_at_epoch := some 100 }

/-- Pending job used to witness the frame part of the amended C4. -/
def c4pendingJob : PersistentPendingMessage :=
  { c4job with id := 3, status := .pending, started_processing_at_epoch := none }

/-- Witness for the amended C4 at concrete jobs exercising all four parts. -/
theorem c4_reset_stuck_witness :
    resetStuckMessages 0 500 [c4stuckJob] = [c4stuckJob].map (resetStuckRow 500) ∧
    resetStuckRow 500 c4stuckJob =
      { c4stuckJob with status := .pending, started_processing_at_epoch := none } ∧
    resetStuckRow 500 c4job = c4job ∧
    resetStuckRow 500 c4pendingJob = c4pendingJob :=
  ⟨(c4_reset_stuck 500 [c4stuckJob] c4stuckJob).1,
   (c4_reset_stuck 500 [c4stuckJob] c4stuckJob).2.1 100 (by decide) (by decide)
     (by decide),
   (c4_reset_stuck 500 [c4stuckJob] c4job).2.2.1 500 (by decide) (by decide),
   (c4_reset_stuck 500 [c4stuckJob] c4pendingJob).2.2.2 (by decide)⟩

/-- Helper: `markFailed` never changes the `tool_input`/`tool_response`
payload columns of any row. -/
theorem markFailed_toolFrame (m : Nat) (now : Int) (messageId : Nat)
    (rows : List PersistentPendingMessage) :
    (markFailed m now messageId rows).map (fun x => (x.tool_input, x.tool_response)) =
      rows.map (fun x => (x.tool_input, x.tool_response)) := by
  unfold markFailed
  cases hf : rows.find? (fun r => r.id == messageId) with
  | none => rfl
  | some msg =>
    by_cases h : msg.retry_count < m <;>
      simp [h, List.map_map, Function.comp_def, apply_ite]

/-- C9: `markProcessed` on the job in status `processing` sets status
`processed`, records the completion time and nulls exactly the transient
payload columns `tool_input` and `tool_response` (the record update touches no
other field); applied to a job not in status `processing` it changes nothing;
and none of `markProcessing`, `markFailed`, `retryMessage` (row effect) or
`resetStuckMessages` (row effect) changes `tool_input`/`tool_response`. -/
theorem c9_mark_processed_frame (now : Int) (messageId : Nat) (m : Nat)
    (r : PersistentPendingMessage) (rows : List PersistentPendingMessage) :
    (r.status = .processing → markProcessedRow now r.id r =
      { r with status := .processed, completed_at_epoch := some now,
               tool_input := none, tool_response := none }) ∧
    (r.status ≠ .processing → markProcessedRow now messageId r = r) ∧
    ((markProcessingRow now messageId r).tool_input = r.tool_input ∧
     (markProcessingRow now messageId r).tool_response = r.tool_response) ∧
    ((markFailed m now messageId rows).map (fun x => (x.tool_input, x.tool_response)) =
      rows.map (fun x => (x.tool_input, x.tool_response))) ∧
    ((retryMessageRow messageId r).tool_input = r.tool_input ∧
     (retryMessageRow messageId r).tool_response = r.tool_response) ∧
    (∀ cutoff : Int, (resetStuckRow cutoff r).tool_input = r.tool_input ∧
      (resetStuckRow cutoff r).tool_response = r.tool_response) := by
  refine ⟨fun h => ?_, fun h => ?_, ?_, markFailed_toolFrame m now messageId rows,
          ?_, fun cutoff => ?_⟩
  · simp [markProcessedRow, h]
  · simp [markProcessedRow, h]
  · unfold markProcessingRow
    constructor <;> split <;> rfl
  · unfold retryMessageRow
    constructor <;> split <;> rfl
  · unfold resetStuckRow
    constructor <;> split <;> rfl

/-- Processing job with live payload columns. -/
def c9job : PersistentPendingMessage :=
  { id := 8, session_db_id := 7, claude_session_id := "S"
    message_type := "observation", tool_name := some "Read"
    tool_input := some "payloadIn", tool_response := some "payloadOut"
    cwd := none, last_user_message := none, last_assistant_message := none
    prompt_number := some 1, status := .processing, retry_count := 0
    created_at_epoch := 0, started_processing_at_epoch := some 10
    completed_at_epoch := none }

/-- Pending job used to witness the no-op part of C9. -/
def c9pendingJob : PersistentPendingMessage := { c9job with id := 9, status := .pending }

/-- Witness for C9 at concrete jobs exercising both status hypotheses. -/
theorem c9_mark_processed_frame_witness :
    markProcessedRow 20 c9job.id c9job =
      { c9job with status := .processed, completed_at_epoch := some 20,
                   tool_input := none, tool_response := none } ∧
    markProcessedRow 20 9 c9pendingJob = c9pendingJob ∧
    ((markProcessingRow 20 9 c9pendingJob).tool_input = c9pendingJob.tool_input ∧
     (markProcessingRow 20 9 c9pendingJob).tool_response = c9pendingJob.tool_response) ∧
    ((markFailed 3 20 9 [c9job]).map (fun x => (x.tool_input, x.tool_response)) =
      [c9job].map (fun x => (x.tool_input, x.tool_response))) ∧
    ((retryMessageRow 9 c9pendingJob).tool_input = c9pendingJob.tool_input ∧
     (retryMessageRow 9 c9pendingJob).tool_response = c9pendingJob.tool_response) ∧
    (∀ cutoff : Int, (resetStuckRow cutoff c9pendingJob).tool_input = c9pendingJob.tool_input ∧
      (resetStuckRow cutoff c9pendingJob).tool_response = c9pendingJob.tool_response) :=
  ⟨(c9_mark_processed_frame 20 9 3 c9job [c9job]).1 (by decide),
   (c9_mark_processed_frame 20 9 3 c9pendingJob [c9job]).2.1 (by decide),
   (c9_mark_processed_frame 20 9 3 c9pendingJob [c9job]).2.2.1,
   (c9_mark_processed_frame 20 9 3 c9pendingJob [c9job]).2.2.2.1,
   (c9_mark_processed_frame 20 9 3 c9pendingJob [c9job]).2.2.2.2.1,
   (c9_mark_processed_frame 20 9 3 c9pendingJob [c9job]).2.2.2.2.2⟩

/-- C10: `retryMessage` leaves `retry_count` unchanged on every row; for a
job in terminal status `failed` whose `retry_count` has reached `maxRetries`,
`retryMessage` forces it back to `pending` with the start time cleared but
restores no retry budget, so the very next `markFailed` moves it directly back
to terminal `failed` (recording the completion time) without granting further
retries. -/
theorem c10_retry_no_budget (r : PersistentPendingMessage) (m : Nat) (now : Int)
    (hst : r.status = .failed) (hrc : m ≤ r.retry_count) :
    (∀ (messageId : Nat) (x : PersistentPendingMessage),
      (retryMessageRow messageId x).retry_count = x.retry_count) ∧
    (retryMessage r.id [r]).1 =
      [{ r with status := .pending, started_processing_at_epoch := none }] ∧
    markFailed m now r.id (retryMessage r.id [r]).1 =
      [{ r with status := .failed, started_processing_at_epoch := none,
                completed_at_epoch := some now }] := by
  have hrow : retryMessageRow r.id r =
      { r with status := .pending, started_processing_at_epoch := none } := by
    simp [retryMessageRow, hst]
  have hn : ¬ r.retry_count < m := Nat.not_lt.mpr hrc
  refine ⟨fun messageId x => ?_, ?_, ?_⟩
  · unfold retryMessageRow
    split <;> rfl
  · simp [retryMessage, hrow]
  · simp [retryMessage, hrow, markFailed, List.find?, hn]

/-- Terminally failed job with exhausted retries. -/
def c10job : PersistentPendingMessage :=
  { id := 6, session_db_id := 7, claude_session_id := "S"
    message_type := "summarize", tool_name := none, tool_input := none
    tool_response := none, cwd := none, last_user_message := none
    last_assistant_message := none, prompt_number := some 2
    status := .failed, retry_count := 3, created_at_epoch := 0
    started_processing_at_epoch := none, completed_at_epoch := some 50 }

/-- Witness for C10 at a concrete failed job with `retry_count = maxRetries = 3`. -/
theorem c10_retry_no_budget_witness :
    (∀ (messageId : Nat) (x : PersistentPendingMessage),
      (retryMessageRow messageId x).retry_count = x.retry_count) ∧
    (retryMessage c10job.id [c10job]).1 =
      [{ c10job with status := .pending, started_processing_at_epoch := none }] ∧
    markFailed 3 60 c10job.id (retryMessage c10job.id [c10job]).1 =
      [{ c10job with status := .failed, started_processing_at_epoch := none,
                     completed_at_epoch := some 60 }] :=
  c10_retry_no_budget c10job 3 60 (by decide) (by decide)

/-! Claims about the import operations and the session upsert. -/

/-- Observation import record whose `title` is NULL. -/
def c5obs : ObservationImport :=
  { sdk_session_id := "S", project := "p", text := none, type := "discovery"
    title := none, subtitle := none, facts := none, narrative := none
    concepts := none, files_read := none, files_modified := none
    prompt_number := some 1, discovery_tokens := 0, created_at := "t"
    created_at_epoch := 10 }

/-- C5 counterexample: importing the identical observation (a NULL `title`)
twice into an empty store yields `imported = true` both times and leaves two
rows, because the existence check compares `title = NULL`, which SQL
three-valued logic never satisfies; the claim states the second call yields
`imported = false` and inserts no row. -/
theorem c5_counterexample :
    (importObservation emptyDb c5obs).1.imported = true ∧
    (importObservation (importObservation emptyDb c5obs).2 c5obs).1.imported = true ∧
    (importObservation (importObservation emptyDb c5obs).2 c5obs).2.observations.length = 2 := by
  decide

/-- C5 (amended): when the natural key is absent from the store, each of
`importSdkSession`, `importObservation` and `importUserPrompt` returns
`{imported := true}` with the fresh id on the first call and
`{imported := false}` with the same id on the second call, which inserts
nothing — for observations however only when the `title` is non-NULL, since a
NULL `title` never matches the existence check and every such import inserts a
new row. -/
theorem c5_import_idempotent (db : Db) (s : SdkSessionImport)
    (o : ObservationImport) (p : UserPromptImport) (t : String) :
    (db.sessions.find? (fun x => x.claude_session_id == s.claude_session_id) = none →
      (importSdkSession db s).1 = { imported := true, id := db.nextSessionId } ∧
      (importSdkSession (importSdkSession db s).2 s).1 =
        { imported := false, id := db.nextSessionId } ∧
      (importSdkSession (importSdkSession db s).2 s).2 = (importSdkSession db s).2) ∧
    (db.prompts.find? (fun x => x.claude_session_id == p.claude_session_id &&
        x.prompt_number == p.prompt_number) = none →
      (importUserPrompt db p).1 = { imported := true, id := db.nextPromptId } ∧
      (importUserPrompt (importUserPrompt db p).2 p).1 =
        { imported := false, id := db.nextPromptId } ∧
      (importUserPrompt (importUserPrompt db p).2 p).2 = (importUserPrompt db p).2) ∧
    (o.title = some t →
      db.observations.find? (fun x => x.sdk_session_id == o.sdk_session_id &&
          sqlEqOptStr x.title o.title && x.created_at_epoch == o.created_at_epoch) = none →
      (importObservation db o).1 = { imported := true, id := db.nextObservationId } ∧
      (importObservation (importObservation db o).2 o).1 =
        { imported := false, id := db.nextObservationId } ∧
      (importObservation (importObservation db o).2 o).2 = (importObservation db o).2) := by
  refine ⟨fun h => ?_, fun h => ?_, fun ht h => ?_⟩
  · have hfind2 : (db.sessions ++ [sessionRowOfImport db.nextSessionId s]).find?
        (fun x => x.claude_session_id == s.claude_session_id) =
        some (sessionRowOfImport db.nextSessionId s) := by
      rw [List.find?_append, h, Option.none_or]
      exact List.find?_cons_of_pos _ (by simp [sessionRowOfImport])
    simp [importSdkSession, h, hfind2]
    rfl
  · have hfind2 : (db.prompts ++ [promptRowOfImport db.nextPromptId p]).find?
        (fun x => x.claude_session_id == p.claude_session_id &&
          x.prompt_number == p.prompt_number) =
        some (promptRowOfImport db.nextPromptId p) := by
      rw [List.find?_append, h, Option.none_or]
      exact List.find?_cons_of_pos _ (by simp [promptRowOfImport])
    simp [importUserPrompt, h, hfind2]
    rfl
  · have hfind2 : (db.observations ++ [observationRowOfImport db.nextObservationId o]).find?
        (fun x => x.sdk_session_id == o.sdk_session_id &&
          sqlEqOptStr x.title o.title && x.created_at_epoch == o.created_at_epoch) =
        some (observationRowOfImport db.nextObservationId o) := by
      rw [List.find?_append, h, Option.none_or]
      exact List.find?_cons_of_pos _ (by simp [observationRowOfImport, sqlEqOptStr, ht])
    simp [importObservation, h, hfind2]
    rfl

/-- Session import record used to witness the amended C5. -/
def c5sess : SdkSessionImport :=
  { claude_session_id := "CS", sdk_session_id := "SK", project := "p"
    user_prompt := "hello", started_at := "t0", started_at_epoch := 1
    completed_at := none, completed_at_epoch := none, status := "active" }

/-- Prompt import record used to witness the amended C5. -/
def c5prompt : UserPromptImport :=
  { claude_session_id := "CS", prompt_number := 1, prompt_text := "hello"
    created_at := "t0", created_at_epoch := 1 }

/-- Observation import record with a non-NULL title, used to witness the
amended C5. -/
def c5titledObs : ObservationImport := { c5obs with title := some "Title" }

/-- Witness for the amended C5 on the empty store. -/
theorem c5_import_idempotent_witness :
    ((importSdkSession emptyDb c5sess).1 =
        { imported := true, id := emptyDb.nextSessionId } ∧
      (importSdkSession (importSdkSession emptyDb c5sess).2 c5sess).1 =
        { imported := false, id := emptyDb.nextSessionId } ∧
      (importSdkSession (importSdkSession emptyDb c5sess).2 c5sess).2 =
        (importSdkSession emptyDb c5sess).2) ∧
    ((importUserPrompt emptyDb c5prompt).1 =
        { imported := true, id := emptyDb.nextPromptId } ∧
      (importUserPrompt (importUserPrompt emptyDb c5prompt).2 c5prompt).1 =
        { imported := false, id := emptyDb.nextPromptId } ∧
      (importUserPrompt (importUserPrompt emptyDb c5prompt).2 c5prompt).2 =
        (importUserPrompt emptyDb c5prompt).2) ∧
    ((importObservation emptyDb c5titledObs).1 =
        { imported := true, id := emptyDb.nextObservationId } ∧
      (importObservation (importObservation emptyDb c5titledObs).2 c5titledObs).1 =
        { imported := false, id := emptyDb.nextObservationId } ∧
      (importObservation (importObservation emptyDb c5titledObs).2 c5titledObs).2 =
        (importObservation emptyDb c5titledObs).2) :=
  ⟨(c5_import_idempotent emptyDb c5sess c5titledObs c5prompt "Title").1 (by decide),
   (c5_import_idempotent emptyDb c5sess c5titledObs c5prompt "Title").2.1 (by decide),
   (c5_import_idempotent emptyDb c5sess c5titledObs c5prompt "Title").2.2 (by decide)
     (by decide)⟩

/-- First summary for session S, prompt number 1. -/
def c6sum1 : SessionSummaryImport :=
  { sdk_session_id := "S", project := "p", request := none, investigated := none
    learned := none, completed := none, next_steps := none, files_read := none
    files_edited := none, notes := none, prompt_number := some 1
    discovery_tokens := 0, created_at := "t1", created_at_epoch := 10 }

/-- Second summary for the same session S with a different prompt number. -/
def c6sum2 : SessionSummaryImport :=
  { c6sum1 with prompt_number := some 2, created_at := "t2", created_at_epoch := 20 }

/-- C6 counterexample: two summaries for the same session with different
prompt numbers — the second import is skipped (`imported = false`, nothing
inserted) although the claim states both are imported, because the existence
check uses the session id alone, not (session id, prompt number). -/
theorem c6_counterexample :
    c6sum1.prompt_number ≠ c6sum2.prompt_number ∧
    (importSessionSummary emptyDb c6sum1).1.imported = true ∧
    (importSessionSummary (importSessionSummary emptyDb c6sum1).2 c6sum2).1.imported = false ∧
    (importSessionSummary (importSessionSummary emptyDb c6sum1).2 c6sum2).2 =
      (importSessionSummary emptyDb c6sum1).2 := by
  decide

/-- C6 (amended): `importSessionSummary` is keyed by the session external id
alone: it skips insertion and returns `{imported := false}` exactly when some
summary with that `sdk_session_id` — regardless of prompt number — already
exists, and in that case the store is unchanged; so a second summary for the
same session with a different prompt number is not imported. -/
theorem c6_summary_natural_key (db : Db) (s : SessionSummaryImport) :
    ((importSessionSummary db s).1.imported = false ↔
      db.summaries.any (fun x => x.sdk_session_id == s.sdk_session_id) = true) ∧
    (db.summaries.any (fun x => x.sdk_session_id == s.sdk_session_id) = true →
      (importSessionSummary db s).2 = db) := by
  cases hf : db.summaries.find? (fun x => x.sdk_session_id == s.sdk_session_id) with
  | none =>
    have hany : db.summaries.any (fun x => x.sdk_session_id == s.sdk_session_id) = false := by
      rw [← Bool.not_eq_true, List.any_eq_true]
      rintro ⟨x, hx, hpx⟩
      exact List.find?_eq_none.mp hf x hx hpx
    simp [importSessionSummary, hf, hany]
  | some row =>
    have hp := List.find?_some hf
    have hany : db.summaries.any (fun x => x.sdk_session_id == s.sdk_session_id) = true :=
      List.any_eq_true.mpr ⟨row, List.mem_of_find?_eq_some hf, hp⟩
    simp [importSessionSummary, hf, hany]

/-- Witness for the amended C6 on the store already holding `c6sum1`. -/
theorem c6_summary_natural_key_witness :
    ((importSessionSummary (importSessionSummary emptyDb c6sum1).2 c6sum2).1.imported = false ↔
      (importSessionSummary emptyDb c6sum1).2.summaries.any
        (fun x => x.sdk_session_id == c6sum2.sdk_session_id) = true) ∧
    (importSessionSummary (importSessionSummary emptyDb c6sum1).2 c6sum2).2 =
      (importSessionSummary emptyDb c6sum1).2 :=
  ⟨(c6_summary_natural_key (importSessionSummary emptyDb c6sum1).2 c6sum2).1,
   (c6_summary_natural_key (importSessionSummary emptyDb c6sum1).2 c6sum2).2 (by decide)⟩

/-- C7: `createSDKSession` is an idempotent upsert keyed by the external
session id.  When no row with that id exists it inserts a row with status
`active` and returns its fresh id; when one exists it returns the stored row's
id and applies `upsertSessionRow` to the table, which overwrites the stored
user prompt, replaces the stored project only if it is currently the empty
string, never changes a non-empty stored project, and preserves row ids. -/
theorem c7_create_session_upsert (db : Db) (now : Int)
    (nowIso userId csid proj prompt : String) :
    (db.sessions.find? (fun x => x.claude_session_id == csid) = none →
      (createSDKSession db now nowIso userId csid proj prompt).1 = db.nextSessionId ∧
      (createSDKSession db now nowIso userId csid proj prompt).2.sessions =
        db.sessions ++ [sessionRowOfCreate db.nextSessionId now nowIso userId csid proj prompt] ∧
      (sessionRowOfCreate db.nextSessionId now nowIso userId csid proj prompt).status =
        "active") ∧
    (∀ s0, db.sessions.find? (fun x => x.claude_session_id == csid) = some s0 →
      (createSDKSession db now nowIso userId csid proj prompt).1 = s0.id ∧
      (createSDKSession db now nowIso userId csid proj prompt).2.sessions =
        db.sessions.map (upsertSessionRow csid proj prompt)) ∧
    (∀ t : SdkSessionRow, t.project ≠ "" →
      (upsertSessionRow csid proj prompt t).project = t.project) ∧
    (∀ t : SdkSessionRow, t.claude_session_id = csid →
      (upsertSessionRow csid proj prompt t).user_prompt = prompt ∧
      (t.project = "" → (upsertSessionRow csid proj prompt t).project = proj)) ∧
    (∀ t : SdkSessionRow, (upsertSessionRow csid proj prompt t).id = t.id) := by
  refine ⟨fun h => ?_, fun s0 h => ?_, fun t ht => ?_, fun t ht => ?_, fun t => ?_⟩
  · exact ⟨by simp [createSDKSession, h], by simp [createSDKSession, h], rfl⟩
  · exact ⟨by simp [createSDKSession, h], by simp [createSDKSession, h]⟩
  · unfold upsertSessionRow
    split
    · simp [ht]
    · rfl
  · unfold upsertSessionRow
    rw [if_pos ht]
    exact ⟨rfl, fun hp => by simp [hp]⟩
  · unfold upsertSessionRow
    split <;> rfl

/-- Stored session row with a non-empty project, used to witness C7. -/
def c7row : SdkSessionRow :=
  sessionRowOfCreate 1 5 "t0" "user" "CS" "projA" "first prompt"

/-- Store holding `c7row`. -/
def c7db : Db := { emptyDb with sessions := [c7row], nextSessionId := 2 }

/-- Witness for C7: a fresh create on the empty store and a repeat create on a
store whose session already has a non-empty project. -/
theorem c7_create_session_upsert_witness :
    ((createSDKSession emptyDb 5 "t0" "user" "CS" "projA" "first prompt").1 =
        emptyDb.nextSessionId ∧
      (createSDKSession emptyDb 5 "t0" "user" "CS" "projA" "first prompt").2.sessions =
        emptyDb.sessions ++
          [sessionRowOfCreate emptyDb.nextSessionId 5 "t0" "user" "CS" "projA" "first prompt"] ∧
      (sessionRowOfCreate emptyDb.nextSessionId 5 "t0" "user" "CS" "projA"
          "first prompt").status = "active") ∧
    ((createSDKSession c7db 9 "t1" "user" "CS" "projB" "second prompt").1 = c7row.id ∧
      (createSDKSession c7db 9 "t1" "user" "CS" "projB" "second prompt").2.sessions =
        c7db.sessions.map (upsertSessionRow "CS" "projB" "second prompt")) ∧
    (upsertSessionRow "CS" "projB" "second prompt" c7row).project = c7row.project ∧
    ((upsertSessionRow "CS" "projB" "second prompt" c7row).user_prompt = "second prompt" ∧
      (c7row.project = "" →
        (upsertSessionRow "CS" "projB" "second prompt" c7row).project = "projB")) ∧
    (upsertSessionRow "CS" "projB" "second prompt" c7row).id = c7row.id :=
  ⟨(c7_create_session_upsert emptyDb 5 "t0" "user" "CS" "projA" "first prompt").1 rfl,
   (c7_create_session_upsert c7db 9 "t1" "user" "CS" "projB" "second prompt").2.1 c7row
     (by decide),
   (c7_create_session_upsert c7db 9 "t1" "user" "CS" "projB" "second prompt").2.2.1 c7row
     (by decide),
   (c7_create_session_upsert c7db 9 "t1" "user" "CS" "projB" "second prompt").2.2.2.1 c7row
     (by decide),
   (c7_create_session_upsert c7db 9 "t1" "user" "CS" "projB" "second prompt").2.2.2.2 c7row⟩

/-! Claims about the timeline window and the replication fan-out. -/

/-- Observation fixture with the given id and creation epoch. -/
def c3obs (i : Nat) (e : Int) : ObservationRow :=
  { id := i, sdk_session_id := "S", project := "p", text := none
    type := "discovery", title := some "t", subtitle := none, facts := none
    narrative := none, concepts := none, files_read := none
    files_modified := none, prompt_number := none, discovery_tokens := 0
    created_at := "c", created_at_epoch := e }

/-- Store holding exactly five observations at epochs 10, 20, 30, 40, 50. -/
def c3db : Db :=
  { emptyDb with
      observations := [c3obs 1 10, c3obs 2 20, c3obs 3 30, c3obs 4 40, c3obs 5 50]
      nextObservationId := 6 }

/-- C3 evaluation at the claim's input: with depthBefore = 2, depthAfter = 2
and anchor epoch 30 over observations at epochs 10..50, the code returns the
window [20, 50] — four observations, not all five.  The before-boundary query
selects `created_at_epoch <= anchor` with `LIMIT depthBefore`, a limit that
the anchor row itself consumes, while the after side compensates with
`LIMIT depthAfter + 1`; so the start boundary is the 1st strictly-older
observation (epoch 20), not the 2nd (epoch 10). -/
theorem c3_timeline_window_eval :
    ((getTimelineAroundObservation c3db (some 3) 30 2 2 none).observations.map
        (fun o => o.created_at_epoch) = [20, 30, 40, 50]) ∧
    (getTimelineAroundObservation c3db (some 3) 30 2 2 none).observations.length = 4 ∧
    c3db.observations.length = 5 := by
  decide

/-- Helper: value of the caught-per-port fold underlying the four replicate
loops, for any accumulator: every port contributes exactly one request URL and
one log entry, and the result is always `Except.ok`. -/
theorem replicateFold_go (fetchResult : Nat → FetchOutcome) (call : Nat → String)
    (onResp : Nat → FetchResponse → LogEntry) (onErr : Nat → String → LogEntry)
    (ports : List Nat) (acc : List String × List LogEntry) :
    (ports.foldlM
      (fun acc port =>
        match fetchModel fetchResult port with
        | .ok resp => Except.ok (acc.1 ++ [call port], acc.2 ++ [onResp port resp])
        | .error m => Except.ok (acc.1 ++ [call port], acc.2 ++ [onErr port m]))
      acc : Except String (List String × List LogEntry)) =
      Except.ok (acc.1 ++ ports.map call,
        acc.2 ++ ports.map (fun port =>
          match fetchModel fetchResult port with
          | .ok resp => onResp port resp
          | .error m => onErr port m)) := by
  induction ports generalizing acc with
  | nil => simp; rfl
  | cons hd tl ih =>
    rw [List.foldlM_cons]
    cases hm : fetchModel fetchResult hd with
    | ok resp =>
      simp only [hm, List.map_cons]
      refine (ih (acc.1 ++ [call hd], acc.2 ++ [onResp hd resp])).trans ?_
      simp
    | error m =>
      simp only [hm, List.map_cons]
      refine (ih (acc.1 ++ [call hd], acc.2 ++ [onErr hd m])).trans ?_
      simp

/-- Helper: closed form of `replicateFold`. -/
theorem replicateFold_eq (fetchResult : Nat → FetchOutcome) (call : Nat → String)
    (onResp : Nat → FetchResponse → LogEntry) (onErr : Nat → String → LogEntry)
    (ports : List Nat) :
    replicateFold fetchResult call onResp onErr ports =
      Except.ok (ports.map call,
        ports.map (fun port =>
          match fetchModel fetchResult port with
          | .ok resp => onResp port resp
          | .error m => onErr port m)) := by
  unfold replicateFold
  simpa using replicateFold_go fetchResult call onResp onErr ports ([], [])

/-- C8: whatever outcome (success, HTTP error, or thrown exception) each port
produces, every `replicate*` operation returns `Except.ok` — no exception
reaches the caller — with exactly one request per secondary port (so one
port's failure never prevents the calls to the remaining secondaries, and an
empty secondary set, `getSecondaryPorts allPorts primaryPort = []`, yields no
network call at all) and one per-port log entry. -/
theorem c8_replication_never_fails (allPorts : List Nat) (primaryPort : Nat)
    (host : String) (fetchResult : Nat → FetchOutcome)
    (od : ObservationReplicationData) (sd : SummaryReplicationData)
    (nd : SessionInitReplicationData) (pd : UserPromptReplicationData) :
    replicateObservation allPorts primaryPort host fetchResult od =
      Except.ok ((getSecondaryPorts allPorts primaryPort).map (observationCallUrl host),
        (getSecondaryPorts allPorts primaryPort).map (fun port =>
          match fetchModel fetchResult port with
          | .ok resp => observationLog od port resp
          | .error m => observationErrLog od port m)) ∧
    replicateSummary allPorts primaryPort host fetchResult sd =
      Except.ok ((getSecondaryPorts allPorts primaryPort).map (summaryCallUrl host),
        (getSecondaryPorts allPorts primaryPort).map (fun port =>
          match fetchModel fetchResult port with
          | .ok resp => summaryLog sd port resp
          | .error m => summaryErrLog sd port m)) ∧
    replicateSessionInit allPorts primaryPort host fetchResult nd =
      Except.ok ((getSecondaryPorts allPorts primaryPort).map (sessionCallUrl host),
        (getSecondaryPorts allPorts primaryPort).map (fun port =>
          match fetchModel fetchResult port with
          | .ok resp => sessionLog nd port resp
          | .error m => sessionErrLog nd port m)) ∧
    replicateUserPrompt allPorts primaryPort host fetchResult pd =
      Except.ok ((getSecondaryPorts allPorts primaryPort).map (promptCallUrl host),
        (getSecondaryPorts allPorts primaryPort).map (fun port =>
          match fetchModel fetchResult port with
          | .ok resp => promptLog pd port resp
          | .error m => promptErrLog pd port m)) := by
  by_cases hempty : (getSecondaryPorts allPorts primaryPort).isEmpty
  · have h0 := List.isEmpty_iff.mp hempty
    refine ⟨?_, ?_, ?_, ?_⟩ <;>
      simp [replicateObservation, replicateSummary, replicateSessionInit,
            replicateUserPrompt, hempty, h0]
  · refine ⟨?_, ?_, ?_, ?_⟩ <;>
      simp [replicateObservation, replicateSummary, replicateSessionInit,
            replicateUserPrompt, hempty, replicateFold_eq]

end ClaudeMem
